import Mathlib

set_option maxRecDepth 100000
set_option allowUnsafeReducibility true
attribute [local semireducible] Rat.mul Rat.inv Rat.add Rat.sub Rat.neg Rat.div

/-!
Verification of the AiTradeIntelligence signal-generation core.

This file shallowly embeds the technical-indicator engine
(`src/app/data/market_data.py`, `calculate_technical_indicators`) and the five
strategy modules (`src/app/strategies/*.py`, method `generate_signals`) in
Lean 4, and proves/refutes the specification's claims about them.

Modelling conventions:
  * pandas float values are modelled as rationals (ℚ); IEEE special values
    (NaN from missing data or 0/0, warm-up NaN of rolling windows) are
    modelled as `Option ℚ` with `none` for NaN where they matter.
  * a strategy's input DataFrame row is a `Bar` carrying the columns the
    strategies read (High, Low, Close, MACD, Signal_Line, Upper_Band,
    Lower_Band); a DataFrame is a `List Bar`.
  * `iloc[-1]` / `iloc[-2]` / `iloc[i]` are list lookups with a default that
    is only reachable when the code's own length guards have already fired.
  * the fractal strategy's box-counting dimension and the rolling standard
    deviation need floating-point `log`/`sqrt`; they are taken as function
    parameters (`fdim`, `sqrtQ`), so every theorem quantifies over all
    possible values those routines could return.
-/

/-- The signal record each strategy returns:
`{'buy': ..., 'sell': ..., 'strength': ...}`. -/
structure Signal where
  buy : Bool
  sell : Bool
  strength : ℚ
deriving DecidableEq, Repr

/-- The `{'buy': False, 'sell': False, 'strength': 0.0}` dictionary every
`generate_signals` starts from. -/
def neutralSignal : Signal := ⟨false, false, 0⟩

/-- One row of the indicator-enriched DataFrame, restricted to the columns
the strategy modules read. -/
structure Bar where
  high : ℚ
  low : ℚ
  close : ℚ
  macd : ℚ
  signal_Line : ℚ
  upper_Band : ℚ
  lower_Band : ℚ
deriving DecidableEq, Repr

/-- Model of `series.iloc[-1]` (last element; the default is unreachable under the
calling code's length guards). -/
def ilocLast (xs : List ℚ) : ℚ := xs.getD (xs.length - 1) 0

/-- Model of `series.iloc[-2]`. -/
def ilocPrev (xs : List ℚ) : ℚ := xs.getD (xs.length - 2) 0

/-- Model of `series.max()` on a column (0 on an empty column, unreachable under
the guards). -/
def maxD : List ℚ → ℚ
  | [] => 0
  | x :: xs => xs.foldl max x

/-- Model of `series.min()` on a column. -/
def minD : List ℚ → ℚ
  | [] => 0
  | x :: xs => xs.foldl min x

def highCol (df : List Bar) : List ℚ := df.map Bar.high
def lowCol (df : List Bar) : List ℚ := df.map Bar.low
def closeCol (df : List Bar) : List ℚ := df.map Bar.close

namespace MACDStrategy

/-- Translation of `MACDStrategy.generate_signals` (src/app/strategies/macd_strategy.py):
buy on an upward MACD/Signal_Line cross between the last two bars, sell on a
downward cross, strength = |MACD[-1] - Signal_Line[-1]|. -/
def generate_signals (df : List Bar) : Signal :=
  if df.length < 2 then neutralSignal
  else
    let m := df.map Bar.macd
    let s := df.map Bar.signal_Line
    if ilocPrev m ≤ ilocPrev s ∧ ilocLast s < ilocLast m then
      ⟨true, false, |ilocLast m - ilocLast s|⟩
    else if ilocPrev s ≤ ilocPrev m ∧ ilocLast m < ilocLast s then
      ⟨false, true, |ilocLast m - ilocLast s|⟩
    else neutralSignal

end MACDStrategy

namespace BollingerStrategy

/-- Translation of `BollingerStrategy.generate_signals`
(src/app/strategies/bollinger_strategy.py): buy when the close is within 2%
above the lower band, else sell when within 2% below the upper band. -/
def generate_signals (df : List Bar) : Signal :=
  if df.length < 20 then neutralSignal
  else
    let c := ilocLast (closeCol df)
    let lb := ilocLast (df.map Bar.lower_Band)
    let ub := ilocLast (df.map Bar.upper_Band)
    let lowerDist := (c - lb) / lb
    let upperDist := (ub - c) / c
    if lowerDist < 1/50 then ⟨true, false, 1 - lowerDist⟩
    else if upperDist < 1/50 then ⟨false, true, 1 - upperDist⟩
    else neutralSignal

end BollingerStrategy

namespace FibonacciStrategy

/-- Translation of `FibonacciStrategy.calculate_fib_levels`: level for ratio `r` between
swing `high` and `low` is `high - (high - low) * r`. -/
def calculate_fib_levels (high low r : ℚ) : ℚ := high - (high - low) * r

/-- The ratios the buy loop iterates over, in program order:
`for level in [0.236, 0.382, 0.618]`. -/
def buyRatios : List ℚ := [236/1000, 382/1000, 618/1000]

/-- The expression the buy loop tests against 0.02 and reuses for the
strength: `abs(current_price - fib_levels[level]) / current_price`, with
`high = data['High'].max()`, `low = data['Low'].min()`,
`current_price = data['Close'].iloc[-1]` over the whole series. -/
def dist (df : List Bar) (r : ℚ) : ℚ :=
  |ilocLast (closeCol df) - calculate_fib_levels (maxD (highCol df)) (minD (lowCol df)) r| /
    ilocLast (closeCol df)

/-- Translation of `FibonacciStrategy.generate_signals`
(src/app/strategies/fibonacci_strategy.py): buy when the last close is
within 2% relative distance of the first matching retracement level among
the ratios 0.236, 0.382, 0.618 (whole-series High max / Low min); the loop
`break`s at the first match. No sell branch exists. -/
def generate_signals (df : List Bar) : Signal :=
  if df.length < 30 then neutralSignal
  else
    match buyRatios.find? (fun r => dist df r < 1/50) with
    | some r => ⟨true, false, 1 - dist df r⟩
    | none => neutralSignal

end FibonacciStrategy

namespace FractalStrategy

/-- Row `i` of `identify_fractals(data)['bullish']`
(src/app/strategies/fractal_strategy.py): the loop runs over interior
indices `range(2, len - 2)` and flags a bullish fractal when the two Lows
on each side are strictly above `Low[i]`. -/
def bullishAt (df : List Bar) (i : ℕ) : Bool :=
  decide (2 ≤ i) && decide (i + 2 < df.length) &&
  decide ((lowCol df).getD i 0 < minD (((lowCol df).drop (i - 2)).take 2)) &&
  decide ((lowCol df).getD i 0 < minD (((lowCol df).drop (i + 1)).take 2))

/-- Row `i` of `identify_fractals(data)['bearish']`: the two Highs on each
side are strictly below `High[i]`. -/
def bearishAt (df : List Bar) (i : ℕ) : Bool :=
  decide (2 ≤ i) && decide (i + 2 < df.length) &&
  decide (maxD (((highCol df).drop (i - 2)).take 2) < (highCol df).getD i 0) &&
  decide (maxD (((highCol df).drop (i + 1)).take 2) < (highCol df).getD i 0)

/-- Translation of `FractalStrategy.generate_signals`, parameterised by the floating-point
box-counting routine `calculate_fractal_dimension` (`fdim`), which the
rational model cannot express (it uses `np.logspace`, `np.log`,
`np.polyfit`); buy/sell flags do not depend on it. Inspects the fractal
flags of the last three rows (`fractals.iloc[-3:]`), bullish before
bearish. -/
def generate_signals (fdim : List ℚ → ℚ) (df : List Bar) : Signal :=
  if df.length < 5 then neutralSignal
  else
    let d := fdim (closeCol df)
    let idxs := [df.length - 3, df.length - 2, df.length - 1]
    if idxs.any (bullishAt df) then ⟨true, false, min 1 (d / 2)⟩
    else if idxs.any (bearishAt df) then ⟨false, true, min 1 (d / 2)⟩
    else neutralSignal

end FractalStrategy

namespace ResistanceStrategy

/-- Model of `data['High'].rolling(window=20, center=True).max()` at row `i`:
pandas places a fixed window of size 20 with centre offset `(20-1)//2 = 9`,
so row `i` covers rows `[i-10, i+9]`; `none` models the NaN rows where the
full window does not fit (`min_periods` defaults to the window size). -/
def rollingCenteredMax20 (xs : List ℚ) (i : ℕ) : Option ℚ :=
  if 10 ≤ i ∧ i + 9 < xs.length then some (maxD ((xs.drop (i - 10)).take 20)) else none

/-- Translation of `ResistanceStrategy.identify_resistance_levels`
(src/app/strategies/resistance_strategy.py): collect `High[i]` for interior
`i in range(20, len - 20)` where the centred rolling max equals `High[i]`
(note: non-strict equality), then `sorted(set(...))`. -/
def identify_resistance_levels (df : List Bar) : List ℚ :=
  let highs := highCol df
  let lvls := (List.range' 20 (df.length - 40)).filterMap (fun i =>
    if rollingCenteredMax20 highs i = some (highs.getD i 0) then some (highs.getD i 0)
    else none)
  List.insertionSort (· ≤ ·) lvls.dedup

/-- Translation of `ResistanceStrategy.calculate_resistance_strength`: count of bars whose
High is within 1% relative distance of the level, times 0.2, scaled by
(1 - proximity), clamped above by 1. -/
def calculate_resistance_strength (price level : ℚ) (df : List Bar) : ℚ :=
  let tests : ℕ := df.countP (fun b => |b.high - level| / level < 1/100)
  let proximity := |price - level| / level
  min 1 ((tests : ℚ) * (1/5) * (1 - proximity))

/-- Translation of `ResistanceStrategy.generate_signals`: below 40 bars (2 × window 20)
neutral; empty level list → neutral; no level strictly above the close →
buy with strength 0.8; else buy with `1 - level_strength` when the nearest
level above is more than 10% away, otherwise sell with `level_strength`. -/
def generate_signals (df : List Bar) : Signal :=
  if df.length < 40 then neutralSignal
  else
    let cp := ilocLast (closeCol df)
    let levels := identify_resistance_levels df
    if levels = [] then neutralSignal
    else
      let levelsAbove := levels.filter (fun l => cp < l)
      if levelsAbove = [] then ⟨true, false, 4/5⟩
      else
        let nearest := minD levelsAbove
        let rs := calculate_resistance_strength cp nearest df
        if 1/10 < (nearest - cp) / cp then ⟨true, false, 1 - rs⟩
        else ⟨false, true, rs⟩

end ResistanceStrategy

namespace MarketData

/-- The DataFrame as seen by `MarketData.calculate_technical_indicators`
(src/app/data/market_data.py): the `Close` column is `none` when it is
missing or non-numeric (the situations whose first use raises the exception
the `except` clause catches); the derived columns carry `Option ℚ` entries
whose `none` models the warm-up/undefined NaN rows. -/
structure PFrame where
  close : Option (List ℚ)
  macd : Option (List ℚ)
  signal_Line : Option (List ℚ)
  ma20 : Option (List (Option ℚ))
  std20 : Option (List (Option ℚ))
  upper_Band : Option (List (Option ℚ))
  lower_Band : Option (List (Option ℚ))
  rsi : Option (List (Option ℚ))
deriving DecidableEq, Repr

/-- Tail of `Series.ewm(span, adjust=False).mean()`: the recursive EMA
`e_t = (1 - a) * e_(t-1) + a * x_t`. -/
def ewmGo (a : ℚ) : ℚ → List ℚ → List ℚ
  | _, [] => []
  | prev, x :: xs =>
    let e := (1 - a) * prev + a * x
    e :: ewmGo a e xs

/-- Model of `Series.ewm(span=span, adjust=False).mean()`: smoothing factor
`2/(span+1)`, seeded at the first observation. -/
def ewm (span : ℕ) : List ℚ → List ℚ
  | [] => []
  | x :: xs => x :: ewmGo (2 / ((span : ℚ) + 1)) x xs

/-- Model of `Series.rolling(window=w).mean()`: `none` for the first `w - 1` rows
(default `min_periods = window`). -/
def rollingMean (w : ℕ) (xs : List ℚ) : List (Option ℚ) :=
  (List.range xs.length).map (fun i =>
    if w ≤ i + 1 then some ((((xs.drop (i + 1 - w)).take w).sum) / (w : ℚ)) else none)

/-- Model of `Series.rolling(window=w).std()`: pandas default `ddof=1` (sample
standard deviation); the floating-point square root is the parameter
`sqrtQ`, which the rational model cannot express. -/
def rollingStd (sqrtQ : ℚ → ℚ) (w : ℕ) (xs : List ℚ) : List (Option ℚ) :=
  (List.range xs.length).map (fun i =>
    if w ≤ i + 1 then
      let win := (xs.drop (i + 1 - w)).take w
      let m := win.sum / (w : ℚ)
      some (sqrtQ ((win.map (fun x => (x - m) ^ 2)).sum / ((w : ℚ) - 1)))
    else none)

/-- Model of `df['Close'].diff()` without its leading NaN: consecutive differences. -/
def diffs (xs : List ℚ) : List ℚ := List.zipWith (fun a b => a - b) (xs.drop 1) xs

/-- Model of `delta.where(delta > 0, 0)`: the leading NaN of `diff()` compares false
against 0 and is replaced by 0, so the gains series starts with 0. -/
def gains (xs : List ℚ) : List ℚ := 0 :: (diffs xs).map (fun d => if 0 < d then d else 0)

/-- Model of `(-delta.where(delta < 0, 0))`: losses as non-negative magnitudes, the
leading NaN again replaced by 0. -/
def losses (xs : List ℚ) : List ℚ := 0 :: (diffs xs).map (fun d => if d < 0 then -d else 0)

/-- The 14-period rolling average gain column. -/
def avgGainCol (xs : List ℚ) : List (Option ℚ) := rollingMean 14 (gains xs)

/-- The 14-period rolling average loss column. -/
def avgLossCol (xs : List ℚ) : List (Option ℚ) := rollingMean 14 (losses xs)

/-- Model of `rs = gain / loss; RSI = 100 - (100 / (1 + rs))` under IEEE float
semantics: `loss = 0, gain > 0` gives `rs = +inf`, hence RSI `= 100 - 0`;
`loss = 0, gain = 0` gives `rs = NaN`, hence RSI NaN (`none`); no exception
is raised in either case. -/
def rsiVal (g l : ℚ) : Option ℚ :=
  if l = 0 then (if g = 0 then none else some 100)
  else some (100 - 100 / (1 + g / l))

/-- The RSI column: defined where both 14-period rolling means are. -/
def rsiCol (xs : List ℚ) : List (Option ℚ) :=
  List.zipWith (fun g? l? =>
      match g?, l? with
      | some g, some l => rsiVal g l
      | _, _ => none)
    (avgGainCol xs) (avgLossCol xs)

/-- Pointwise `MA20 + 2 * STD` / `MA20 - 2 * STD` over NaN-capable
columns. -/
def bandCombine (f : ℚ → ℚ → ℚ) (ma sd : List (Option ℚ)) : List (Option ℚ) :=
  List.zipWith (fun a b =>
      match a, b with
      | some x, some y => some (f x y)
      | _, _ => none)
    ma sd

/-- Translation of `MarketData.calculate_technical_indicators`
(src/app/data/market_data.py): an empty frame is returned as-is; a
missing/non-numeric `Close` column makes the first statement of the `try`
block raise, the `except` clause catches it and returns the frame as-is;
otherwise all seven derived columns are (re)assigned from `Close`. -/
def calculate_technical_indicators (sqrtQ : ℚ → ℚ) (f : PFrame) : PFrame :=
  match f.close with
  | none => f
  | some c =>
    if c = [] then f
    else
      let m := List.zipWith (fun a b => a - b) (ewm 12 c) (ewm 26 c)
      let ma := rollingMean 20 c
      let sd := rollingStd sqrtQ 20 c
      { f with
        macd := some m
        signal_Line := some (ewm 9 m)
        ma20 := some ma
        std20 := some sd
        upper_Band := some (bandCombine (fun x y => x + 2 * y) ma sd)
        lower_Band := some (bandCombine (fun x y => x - 2 * y) ma sd)
        rsi := some (rsiCol c) }

end MarketData

/-- Indexing a `zipWith` at an in-range position applies the function to
the two columns' entries at that position. -/
theorem getD_zipWith {α β γ : Type} (f : α → β → γ) (as : List α) (bs : List β)
    (i : ℕ) (da : α) (db : β) (dc : γ)
    (h1 : i < as.length) (h2 : i < bs.length) :
    (List.zipWith f as bs).getD i dc = f (as.getD i da) (bs.getD i db) := by
  induction as generalizing bs i with
  | nil => simp at h1
  | cons a as ih =>
    cases bs with
    | nil => simp at h2
    | cons b bs =>
      cases i with
      | zero => simp
      | succ n =>
        simp only [List.zipWith_cons_cons, List.getD_cons_succ]
        exact ih bs n (Nat.lt_of_succ_lt_succ h1) (Nat.lt_of_succ_lt_succ h2)

/-- A left fold of `min` over a list stays in the list unless it is the
initial accumulator. -/
theorem foldl_min_mem (t : List ℚ) : ∀ x : ℚ, t.foldl min x = x ∨ t.foldl min x ∈ t := by
  induction t with
  | nil => intro x; left; rfl
  | cons a t ih =>
    intro x
    rcases ih (min x a) with hm | hm
    · rcases min_choice x a with hc | hc
      · left; rw [List.foldl_cons, hm, hc]
      · right; rw [List.foldl_cons, hm, hc]; exact List.mem_cons_self a t
    · right; rw [List.foldl_cons]; exact List.mem_cons_of_mem a hm

/-- The `min()` of a non-empty column is one of its entries. -/
theorem minD_mem (xs : List ℚ) (h : xs ≠ []) : minD xs ∈ xs := by
  match xs with
  | x :: t =>
    have he : minD (x :: t) = t.foldl min x := rfl
    rw [he]
    rcases foldl_min_mem t x with hm | hm
    · rw [hm]; exact List.mem_cons_self x t
    · exact List.mem_cons_of_mem x hm

/-- With at least 30 bars, the Fibonacci signal is determined by testing
the ratios 0.236, 0.382, 0.618 in order, first match winning. -/
theorem fib_gen_eq (df : List Bar) (h : 30 ≤ df.length) :
    FibonacciStrategy.generate_signals df =
      (if FibonacciStrategy.dist df (236/1000) < 1/50 then
        ⟨true, false, 1 - FibonacciStrategy.dist df (236/1000)⟩
       else if FibonacciStrategy.dist df (382/1000) < 1/50 then
        ⟨true, false, 1 - FibonacciStrategy.dist df (382/1000)⟩
       else if FibonacciStrategy.dist df (618/1000) < 1/50 then
        ⟨true, false, 1 - FibonacciStrategy.dist df (618/1000)⟩
       else neutralSignal) := by
  unfold FibonacciStrategy.generate_signals
  rw [if_neg (Nat.not_lt.mpr h)]
  simp only [FibonacciStrategy.buyRatios]
  by_cases h1 : FibonacciStrategy.dist df (236/1000) < 1/50
  · simp only [List.find?, decide_eq_true h1, if_pos h1]
  · rw [if_neg h1]
    by_cases h2 : FibonacciStrategy.dist df (382/1000) < 1/50
    · simp only [List.find?, decide_eq_false h1, decide_eq_true h2, if_pos h2]
    · rw [if_neg h2]
      by_cases h3 : FibonacciStrategy.dist df (618/1000) < 1/50
      · simp only [List.find?, decide_eq_false h1, decide_eq_false h2, decide_eq_true h3,
          if_pos h3]
      · simp only [List.find?, decide_eq_false h1, decide_eq_false h2, decide_eq_false h3,
          if_neg h3]

section Claims

/-- C3: for every strategy and every input series (and, for the fractal
strategy, every possible value of the floating-point fractal-dimension
routine), the signal returned by `generate_signals` never has `buy` and
`sell` simultaneously true. -/
theorem signals_never_buy_and_sell :
    (∀ df : List Bar,
      ((MACDStrategy.generate_signals df).buy && (MACDStrategy.generate_signals df).sell) = false) ∧
    (∀ df : List Bar,
      ((BollingerStrategy.generate_signals df).buy && (BollingerStrategy.generate_signals df).sell) = false) ∧
    (∀ df : List Bar,
      ((FibonacciStrategy.generate_signals df).buy && (FibonacciStrategy.generate_signals df).sell) = false) ∧
    (∀ (fdim : List ℚ → ℚ) (df : List Bar),
      ((FractalStrategy.generate_signals fdim df).buy && (FractalStrategy.generate_signals fdim df).sell) = false) ∧
    (∀ df : List Bar,
      ((ResistanceStrategy.generate_signals df).buy && (ResistanceStrategy.generate_signals df).sell) = false) := by
  refine ⟨fun df => ?_, fun df => ?_, fun df => ?_, fun fdim df => ?_, fun df => ?_⟩
  · simp only [MACDStrategy.generate_signals]
    repeat' split
    all_goals simp [neutralSignal]
  · simp only [BollingerStrategy.generate_signals]
    repeat' split
    all_goals simp [neutralSignal]
  · simp only [FibonacciStrategy.generate_signals]
    repeat' split
    all_goals simp [neutralSignal]
  · simp only [FractalStrategy.generate_signals]
    repeat' split
    all_goals simp [neutralSignal]
  · simp only [ResistanceStrategy.generate_signals]
    repeat' split
    all_goals simp [neutralSignal]

/-- C6: every strategy, given fewer bars than its stated minimum window
(2 for MACD, 20 for Bollinger, 30 for Fibonacci, 5 for Fractal, 40 for
Resistance), returns exactly the neutral signal
`{buy: false, sell: false, strength: 0.0}`. -/
theorem short_series_neutral :
    (∀ df : List Bar, df.length < 2 → MACDStrategy.generate_signals df = neutralSignal) ∧
    (∀ df : List Bar, df.length < 20 → BollingerStrategy.generate_signals df = neutralSignal) ∧
    (∀ df : List Bar, df.length < 30 → FibonacciStrategy.generate_signals df = neutralSignal) ∧
    (∀ (fdim : List ℚ → ℚ) (df : List Bar), df.length < 5 →
      FractalStrategy.generate_signals fdim df = neutralSignal) ∧
    (∀ df : List Bar, df.length < 40 → ResistanceStrategy.generate_signals df = neutralSignal) := by
  refine ⟨fun df h => ?_, fun df h => ?_, fun df h => ?_, fun fdim df h => ?_, fun df h => ?_⟩
  · simp [MACDStrategy.generate_signals, h]
  · simp [BollingerStrategy.generate_signals, h]
  · simp [FibonacciStrategy.generate_signals, h]
  · simp [FractalStrategy.generate_signals, h]
  · simp [ResistanceStrategy.generate_signals, h]

/-- Witness for C6: the empty series is below every minimum window and
yields the neutral signal from each of the five strategies. -/
theorem short_series_neutral_witness :
    MACDStrategy.generate_signals [] = neutralSignal ∧
    BollingerStrategy.generate_signals [] = neutralSignal ∧
    FibonacciStrategy.generate_signals [] = neutralSignal ∧
    FractalStrategy.generate_signals (fun _ => 0) [] = neutralSignal ∧
    ResistanceStrategy.generate_signals [] = neutralSignal :=
  ⟨short_series_neutral.1 [] (by decide),
   short_series_neutral.2.1 [] (by decide),
   short_series_neutral.2.2.1 [] (by decide),
   short_series_neutral.2.2.2.1 (fun _ => 0) [] (by decide),
   short_series_neutral.2.2.2.2 [] (by decide)⟩

/-- C10: every series of exactly 40 bars — the resistance strategy's stated
minimum — yields the neutral signal regardless of the price data, because
the interior loop `range(20, len - 20)` is empty, the level list is empty,
and the empty-list early return fires. -/
theorem resistance_forty_bars_neutral (df : List Bar) (h : df.length = 40) :
    ResistanceStrategy.generate_signals df = neutralSignal := by
  simp [ResistanceStrategy.generate_signals, ResistanceStrategy.identify_resistance_levels, h]

/-- Witness for C10: a concrete non-flat 40-bar series (alternating highs)
still returns the neutral signal. -/
theorem resistance_forty_bars_neutral_witness :
    ResistanceStrategy.generate_signals
      ((List.range 40).map (fun i => ⟨if i % 2 = 0 then 10 else 20, 5, 12, 0, 0, 0, 0⟩)) =
      neutralSignal :=
  resistance_forty_bars_neutral _ (by simp)

/-- C4: with at least 2 bars, an upward MACD/Signal_Line cross between the
last two bars yields `buy = true, sell = false` and strength
`|MACD[-1] - Signal_Line[-1]|`; the opposite cross yields
`sell = true, buy = false` with the same strength formula. -/
theorem macd_crossing_signals :
    (∀ df : List Bar, 2 ≤ df.length →
      ilocPrev (df.map Bar.macd) ≤ ilocPrev (df.map Bar.signal_Line) →
      ilocLast (df.map Bar.signal_Line) < ilocLast (df.map Bar.macd) →
      MACDStrategy.generate_signals df =
        ⟨true, false, |ilocLast (df.map Bar.macd) - ilocLast (df.map Bar.signal_Line)|⟩) ∧
    (∀ df : List Bar, 2 ≤ df.length →
      ilocPrev (df.map Bar.signal_Line) ≤ ilocPrev (df.map Bar.macd) →
      ilocLast (df.map Bar.macd) < ilocLast (df.map Bar.signal_Line) →
      MACDStrategy.generate_signals df =
        ⟨false, true, |ilocLast (df.map Bar.macd) - ilocLast (df.map Bar.signal_Line)|⟩) := by
  constructor
  · intro df hlen hle hlt
    simp [MACDStrategy.generate_signals, Nat.not_lt.mpr hlen, hle, hlt]
  · intro df hlen hge hlt
    have hnot : ¬(ilocPrev (df.map Bar.macd) ≤ ilocPrev (df.map Bar.signal_Line) ∧
        ilocLast (df.map Bar.signal_Line) < ilocLast (df.map Bar.macd)) := by
      rintro ⟨_, hc⟩; exact absurd hc (lt_asymm hlt)
    simp [MACDStrategy.generate_signals, Nat.not_lt.mpr hlen, hnot, hge, hlt]

/-- A two-bar frame where MACD crosses the signal line upward. -/
def macdUpCross : List Bar := [⟨0, 0, 0, -1, 0, 0, 0⟩, ⟨0, 0, 0, 1, 0, 0, 0⟩]

/-- A two-bar frame where MACD crosses the signal line downward. -/
def macdDownCross : List Bar := [⟨0, 0, 0, 1, 0, 0, 0⟩, ⟨0, 0, 0, -1, 0, 0, 0⟩]

/-- Witness for C4: both crossing directions realised on concrete two-bar
series. -/
theorem macd_crossing_signals_witness :
    MACDStrategy.generate_signals macdUpCross = ⟨true, false, 1⟩ ∧
    MACDStrategy.generate_signals macdDownCross = ⟨false, true, 1⟩ :=
  ⟨(macd_crossing_signals.1 macdUpCross (by decide) (by decide) (by decide)).trans
      (by norm_num [macdUpCross, ilocLast, ilocPrev]),
   (macd_crossing_signals.2 macdDownCross (by decide) (by decide) (by decide)).trans
      (by norm_num [macdDownCross, ilocLast, ilocPrev])⟩

/-- C8: when the first access to the `Close` column raises (missing or
non-numeric column, modelled as `close = none`), the `except` clause of
`calculate_technical_indicators` catches the exception and the input frame
is returned unmodified — in particular every indicator column of the result
equals that of the input, so none is newly added. -/
theorem indicators_exception_returns_input (sqrtQ : ℚ → ℚ) (f : MarketData.PFrame)
    (h : f.close = none) :
    MarketData.calculate_technical_indicators sqrtQ f = f := by
  simp [MarketData.calculate_technical_indicators, h]

/-- Witness for C8: the frame with no columns at all is returned as-is. -/
theorem indicators_exception_returns_input_witness :
    MarketData.calculate_technical_indicators (fun q => q)
      ⟨none, none, none, none, none, none, none, none⟩ =
      ⟨none, none, none, none, none, none, none, none⟩ :=
  indicators_exception_returns_input (fun q => q) _ rfl

/-- C9: `calculate_technical_indicators` is idempotent for every frame and
every value of the floating-point square-root routine: recomputing on an
already-enriched frame reads the unchanged `Close` column and overwrites
every indicator column with identical values, so the whole frame — hence
every indicator column (MACD, Signal_Line, MA20, Upper_Band, Lower_Band,
RSI) — is unchanged; there is no hidden mutable state. -/
theorem indicators_idempotent (sqrtQ : ℚ → ℚ) (f : MarketData.PFrame) :
    MarketData.calculate_technical_indicators sqrtQ
        (MarketData.calculate_technical_indicators sqrtQ f) =
      MarketData.calculate_technical_indicators sqrtQ f := by
  rcases hc : f.close with _ | c
  · simp [MarketData.calculate_technical_indicators, hc]
  · by_cases he : c = []
    · simp [MarketData.calculate_technical_indicators, hc, he]
    · simp [MarketData.calculate_technical_indicators, hc, he]

/-- A flat 41-bar series: every High, Low and Close equals 10, so no bar's
High is a strict local maximum in any sense. -/
def flatSeries41 : List Bar := List.replicate 41 ⟨10, 10, 10, 0, 0, 0, 0⟩

/-- Returns `true` iff no bar's High is a strict local maximum (strictly above both
neighbouring bars' Highs). -/
def hasNoStrictLocalHigh (df : List Bar) : Bool :=
  (List.range df.length).all (fun i =>
    !(decide (0 < i) && decide (i + 1 < df.length) &&
      decide ((highCol df).getD (i - 1) 0 < (highCol df).getD i 0) &&
      decide ((highCol df).getD (i + 1) 0 < (highCol df).getD i 0)))

/-- Counterexample to C1: the flat 41-bar series has no strict local
maximum anywhere, yet `identify_resistance_levels` returns the non-empty
list `[10]` — the code compares each High to the centred rolling maximum
with non-strict equality, so every interior bar of a flat series qualifies.
The buy/0.8 outcome still occurs, but through the non-empty-list path, and
an empty level list would instead return the neutral signal. -/
theorem resistance_flat_series_counterexample :
    flatSeries41.length = 41 ∧
    hasNoStrictLocalHigh flatSeries41 = true ∧
    ResistanceStrategy.identify_resistance_levels flatSeries41 = [10] ∧
    ResistanceStrategy.generate_signals flatSeries41 = ⟨true, false, 4/5⟩ := by
  refine ⟨by decide, by decide, by decide, by decide⟩

/-- C1 (amended): for a series of at least 40 bars whose identified
resistance-level list is NON-empty, if no level lies strictly above the
current close then `generate_signals` returns
`buy = true, sell = false, strength = 0.8`; when the level list is empty
the empty-list early return yields the neutral signal instead. (A flat
series of at least 41 bars produces a non-empty list, since the test
against the centred rolling maximum is non-strict equality.) -/
theorem resistance_no_level_above_amended :
    (∀ df : List Bar, 40 ≤ df.length →
      ResistanceStrategy.identify_resistance_levels df ≠ [] →
      (ResistanceStrategy.identify_resistance_levels df).filter
          (fun l => ilocLast (closeCol df) < l) = [] →
      ResistanceStrategy.generate_signals df = ⟨true, false, 4/5⟩) ∧
    (∀ df : List Bar,
      ResistanceStrategy.identify_resistance_levels df = [] →
      ResistanceStrategy.generate_signals df = neutralSignal) := by
  constructor
  · intro df hlen hne hfil
    simp [ResistanceStrategy.generate_signals, Nat.not_lt.mpr hlen, hne, hfil]
  · intro df he
    unfold ResistanceStrategy.generate_signals
    split
    · rfl
    · simp [he]

/-- Witness for the amended C1: the flat 41-bar series has the non-empty
level list `[10]`, no level strictly above the close 10, and gets the
buy/0.8 signal. -/
theorem resistance_no_level_above_amended_witness :
    ResistanceStrategy.generate_signals flatSeries41 = ⟨true, false, 4/5⟩ :=
  resistance_no_level_above_amended.1 flatSeries41 (by decide) (by decide) (by decide)

/-- C7: with at least 30 bars the Fibonacci strategy never sells; it buys
exactly when the last close is within 2% relative distance of the level
`high - (high - low) * r` for some ratio r in {0.236, 0.382, 0.618} (High
max / Low min over the whole series), testing the ratios in that fixed
order with the first match winning and strength `1 - relative_distance`;
and for high = 100, low = 0 the 0.618 level equals 38.2. -/
theorem fibonacci_buy_characterisation :
    (FibonacciStrategy.calculate_fib_levels 100 0 (618/1000) = 191/5) ∧
    (∀ df : List Bar, 30 ≤ df.length →
      (FibonacciStrategy.generate_signals df).sell = false ∧
      ((FibonacciStrategy.generate_signals df).buy = true ↔
        ∃ r ∈ FibonacciStrategy.buyRatios, FibonacciStrategy.dist df r < 1/50) ∧
      (FibonacciStrategy.dist df (236/1000) < 1/50 →
        FibonacciStrategy.generate_signals df =
          ⟨true, false, 1 - FibonacciStrategy.dist df (236/1000)⟩) ∧
      (¬FibonacciStrategy.dist df (236/1000) < 1/50 →
        FibonacciStrategy.dist df (382/1000) < 1/50 →
        FibonacciStrategy.generate_signals df =
          ⟨true, false, 1 - FibonacciStrategy.dist df (382/1000)⟩) ∧
      (¬FibonacciStrategy.dist df (236/1000) < 1/50 →
        ¬FibonacciStrategy.dist df (382/1000) < 1/50 →
        FibonacciStrategy.dist df (618/1000) < 1/50 →
        FibonacciStrategy.generate_signals df =
          ⟨true, false, 1 - FibonacciStrategy.dist df (618/1000)⟩)) := by
  refine ⟨by decide, fun df h => ?_⟩
  rw [fib_gen_eq df h]
  refine ⟨?_, ?_, ?_, ?_, ?_⟩
  · split_ifs <;> rfl
  · split_ifs with h1 h2 h3
    · exact ⟨fun _ => ⟨236/1000, by simp [FibonacciStrategy.buyRatios], h1⟩, fun _ => rfl⟩
    · exact ⟨fun _ => ⟨382/1000, by simp [FibonacciStrategy.buyRatios], h2⟩, fun _ => rfl⟩
    · exact ⟨fun _ => ⟨618/1000, by simp [FibonacciStrategy.buyRatios], h3⟩, fun _ => rfl⟩
    · constructor
      · intro hb; exact absurd hb (by simp [neutralSignal])
      · rintro ⟨r, hr, hd⟩
        simp only [FibonacciStrategy.buyRatios, List.mem_cons, List.mem_singleton] at hr
        rcases hr with rfl | rfl | rfl | hr
        · exact absurd hd h1
        · exact absurd hd h2
        · exact absurd hd h3
        · exact absurd hr (List.not_mem_nil r)
  · intro hd1; rw [if_pos hd1]
  · intro hd1 hd2; rw [if_neg hd1, if_pos hd2]
  · intro hd1 hd2 hd3; rw [if_neg hd1, if_neg hd2, if_pos hd3]

/-- A 30-bar series with whole-series high 100, low 0 and last close 38,
which is within 2% of the 0.618 level 38.2 but not of the other levels. -/
def fibSeries30 : List Bar :=
  List.replicate 29 ⟨100, 0, 50, 0, 0, 0, 0⟩ ++ [⟨100, 0, 38, 0, 0, 0, 0⟩]

/-- Witness for C7: the 0.618 level fires on `fibSeries30` with relative
distance 1/190 and strength 189/190. -/
theorem fibonacci_buy_characterisation_witness :
    FibonacciStrategy.generate_signals fibSeries30 = ⟨true, false, 189/190⟩ :=
  ((fibonacci_buy_characterisation.2 fibSeries30 (by decide)).2.2.2.2
      (by decide) (by decide) (by decide)).trans (by decide)

/-- Twenty bars whose last close (50) sits well below the last lower band
(75) — a perfectly realistic post-crash frame. -/
def bollingerBelowBand : List Bar := List.replicate 20 ⟨100, 50, 50, 0, 0, 120, 75⟩

/-- Counterexample to C2: the Bollinger strategy (one of the strategies
other than MACD) returns strength 4/3 > 1 when the close is below the
lower band: `strength = 1 - (close - lower)/lower = 1 - (50-75)/75`. -/
theorem bollinger_strength_above_one_counterexample :
    (BollingerStrategy.generate_signals bollingerBelowBand).buy = true ∧
    1 < (BollingerStrategy.generate_signals bollingerBelowBand).strength := by
  refine ⟨by decide, by decide⟩

/-- C2 (amended): the strength bound [0,1] holds for Bollinger only when
the last close lies between positive lower and upper bands, for Fibonacci
whenever the last close is positive, and for Resistance whenever the last
close and all identified resistance levels are positive; below the lower
band the Bollinger buy strength exceeds 1 (and no bound is asserted for
the fractal strategy, whose strength depends on the floating-point
fractal-dimension routine). -/
theorem strength_bounds_amended :
    (∀ df : List Bar,
      0 < ilocLast (df.map Bar.lower_Band) →
      ilocLast (df.map Bar.lower_Band) ≤ ilocLast (closeCol df) →
      ilocLast (closeCol df) ≤ ilocLast (df.map Bar.upper_Band) →
      0 ≤ (BollingerStrategy.generate_signals df).strength ∧
        (BollingerStrategy.generate_signals df).strength ≤ 1) ∧
    (∀ df : List Bar, 0 < ilocLast (closeCol df) →
      0 ≤ (FibonacciStrategy.generate_signals df).strength ∧
        (FibonacciStrategy.generate_signals df).strength ≤ 1) ∧
    (∀ df : List Bar, 0 < ilocLast (closeCol df) →
      (∀ l ∈ ResistanceStrategy.identify_resistance_levels df, 0 < l) →
      0 ≤ (ResistanceStrategy.generate_signals df).strength ∧
        (ResistanceStrategy.generate_signals df).strength ≤ 1) := by
  refine ⟨fun df h0 hlc hcu => ?_, fun df hcp => ?_, fun df hcp hlv => ?_⟩
  · simp only [BollingerStrategy.generate_signals]
    split_ifs with h20 hld hud
    · norm_num [neutralSignal]
    · have hnn : 0 ≤ (ilocLast (closeCol df) - ilocLast (df.map Bar.lower_Band)) /
          ilocLast (df.map Bar.lower_Band) :=
        div_nonneg (by linarith) h0.le
      exact ⟨by linarith, by linarith⟩
    · have hc0 : 0 < ilocLast (closeCol df) := lt_of_lt_of_le h0 hlc
      have hnn : 0 ≤ (ilocLast (df.map Bar.upper_Band) - ilocLast (closeCol df)) /
          ilocLast (closeCol df) :=
        div_nonneg (by linarith) hc0.le
      exact ⟨by linarith, by linarith⟩
    · norm_num [neutralSignal]
  · by_cases h30 : df.length < 30
    · have he : FibonacciStrategy.generate_signals df = neutralSignal := by
        simp [FibonacciStrategy.generate_signals, h30]
      rw [he]; norm_num [neutralSignal]
    · have hd : ∀ r, 0 ≤ FibonacciStrategy.dist df r := fun r => by
        rw [FibonacciStrategy.dist]
        exact div_nonneg (abs_nonneg _) hcp.le
      rw [fib_gen_eq df (Nat.le_of_not_lt h30)]
      split_ifs with h1 h2 h3
      · exact ⟨by linarith [h1], by linarith [hd (236/1000)]⟩
      · exact ⟨by linarith [h2], by linarith [hd (382/1000)]⟩
      · exact ⟨by linarith [h3], by linarith [hd (618/1000)]⟩
      · norm_num [neutralSignal]
  · simp only [ResistanceStrategy.generate_signals]
    split_ifs with h40 hne hab hfar
    · norm_num [neutralSignal]
    · norm_num [neutralSignal]
    · norm_num
    all_goals {
      have hmem : minD ((ResistanceStrategy.identify_resistance_levels df).filter
            (fun l => ilocLast (closeCol df) < l)) ∈
          (ResistanceStrategy.identify_resistance_levels df).filter
            (fun l => ilocLast (closeCol df) < l) := minD_mem _ hab
      have hflt := List.mem_filter.mp hmem
      have hlt : ilocLast (closeCol df) < minD
          ((ResistanceStrategy.identify_resistance_levels df).filter
            (fun l => ilocLast (closeCol df) < l)) := of_decide_eq_true hflt.2
      have hpos := hlv _ hflt.1
      have h01 : 0 ≤ ResistanceStrategy.calculate_resistance_strength
            (ilocLast (closeCol df))
            (minD ((ResistanceStrategy.identify_resistance_levels df).filter
              (fun l => ilocLast (closeCol df) < l))) df ∧
          ResistanceStrategy.calculate_resistance_strength
            (ilocLast (closeCol df))
            (minD ((ResistanceStrategy.identify_resistance_levels df).filter
              (fun l => ilocLast (closeCol df) < l))) df ≤ 1 := by
        unfold ResistanceStrategy.calculate_resistance_strength
        refine ⟨le_min (by norm_num) ?_, min_le_left _ _⟩
        refine mul_nonneg (mul_nonneg (Nat.cast_nonneg _) (by norm_num)) ?_
        rw [sub_nonneg, abs_sub_comm, abs_of_pos (sub_pos.mpr hlt), div_le_one hpos]
        linarith
      constructor <;> simp only [] <;> [linarith [h01.1, h01.2]; linarith [h01.1, h01.2]]
    }

/-- Twenty bars with the close between healthy bands. -/
def bollingerInsideBands : List Bar := List.replicate 20 ⟨0, 0, 100, 0, 0, 110, 90⟩

/-- A single positive-close bar for the Fibonacci bound. -/
def singleBarFib : List Bar := [⟨0, 0, 5, 0, 0, 0, 0⟩]

/-- A single positive-price bar for the Resistance bound. -/
def singleBarRes : List Bar := [⟨5, 0, 5, 0, 0, 0, 0⟩]

/-- Witness for the amended C2: the three positivity/position conditions
hold on concrete frames and the strengths land in [0,1]. -/
theorem strength_bounds_amended_witness :
    (0 ≤ (BollingerStrategy.generate_signals bollingerInsideBands).strength ∧
      (BollingerStrategy.generate_signals bollingerInsideBands).strength ≤ 1) ∧
    (0 ≤ (FibonacciStrategy.generate_signals singleBarFib).strength ∧
      (FibonacciStrategy.generate_signals singleBarFib).strength ≤ 1) ∧
    (0 ≤ (ResistanceStrategy.generate_signals singleBarRes).strength ∧
      (ResistanceStrategy.generate_signals singleBarRes).strength ≤ 1) :=
  ⟨strength_bounds_amended.1 bollingerInsideBands (by decide) (by decide) (by decide),
   strength_bounds_amended.2.1 singleBarFib (by decide),
   strength_bounds_amended.2.2 singleBarRes (by decide) (by decide)⟩

/-- Fifteen equal closes: every 14-period average gain and loss is 0. -/
def flatCloses : List ℚ := List.replicate 15 7

/-- Counterexample to C5: on a flat 15-bar close series the 14-period
average loss at the last row is 0, yet RSI there is NaN (undefined), not
100 — `rs = gain/loss` is the float division `0/0 = NaN` and the code has
no special case for it. -/
theorem rsi_flat_series_counterexample :
    (MarketData.avgLossCol flatCloses).getD 14 none = some 0 ∧
    (MarketData.rsiCol flatCloses).getD 14 none = none := by
  refine ⟨by decide, by decide⟩

/-- C5 (amended): whenever the 14-period average loss is 0 and the
14-period average gain is nonzero, RSI is defined and equals 100 (through
IEEE infinity arithmetic, `100 - 100/(1 + inf) = 100`, rather than an
explicit special case, and with no error raised); when the average gain is
also 0 the division is `0/0` and RSI is NaN. -/
theorem rsi_zero_loss_amended (xs : List ℚ) (i : ℕ) (g : ℚ)
    (hg : (MarketData.avgGainCol xs).getD i none = some g)
    (hl : (MarketData.avgLossCol xs).getD i none = some 0)
    (hgz : g ≠ 0) :
    (MarketData.rsiCol xs).getD i none = some 100 := by
  have h1 : i < (MarketData.avgGainCol xs).length := by
    by_contra hcon
    rw [List.getD_eq_default _ _ (le_of_not_lt hcon)] at hg
    simp at hg
  have h2 : i < (MarketData.avgLossCol xs).length := by
    by_contra hcon
    rw [List.getD_eq_default _ _ (le_of_not_lt hcon)] at hl
    simp at hl
  rw [MarketData.rsiCol, getD_zipWith _ _ _ i none none none h1 h2, hg, hl]
  simp [MarketData.rsiVal, hgz]

/-- Fifteen strictly rising closes: average loss 0, average gain 1. -/
def risingCloses : List ℚ := (List.range 15).map (fun i => (i : ℚ))

/-- Witness for the amended C5: strictly rising closes give average loss 0,
average gain 1, and RSI exactly 100. -/
theorem rsi_zero_loss_amended_witness :
    (MarketData.rsiCol risingCloses).getD 14 none = some 100 :=
  rsi_zero_loss_amended risingCloses 14 1 (by decide) (by decide) (by decide)

end Claims
